import Mathlib

/-!
Verification of the TinyNav serial protocol engine.

This file gives a shallow embedding, in Lean 4, of the protocol-parsing
code of the repository:

* `read_serial.py` — the depth-frame decoder `read_frame` together with its
  alphabet table `CHAR_TO_VALUE`;
* `download_log.py` — the three operations of `SerialFileDownloader`:
  `get_current_log_filename`, `list_files` and `download_file`.

The serial transport is modelled as a timed trace: a list of pairs
`(t, raw)` where `t : Nat` is the arrival time of the raw line `raw`
(measured from the start of the operation, in the same unit as the
`TIMEOUT` constant; the Python code uses `time.time()` seconds).  A loop of
the form `while time.time() - start < TIMEOUT: if in_waiting: line = ...`
processes an arriving line exactly when its arrival time `t` satisfies
`t - start < TIMEOUT`, and exits by deadline otherwise; when the trace is
exhausted, the loop idles until the deadline expires, which is the same
observable outcome, so trace exhaustion is folded into the deadline exit.

Python-level string operations (`rstrip`, `strip`, `split` with a maxsplit
bound, `int` parsing) are embedded as executable Lean functions below.
`int()` raising `ValueError` on a non-numeric string is modelled with
`Except String`, the error carrying `"ValueError"`.

The progress callback of `download_file` is an external collaborator
(the spec's ProgressSink): it receives `(progress, bytes_received,
file_size)` but has no effect on the control flow or on the returned
value, so the embedding omits the `file_size` / `bytes_received`
bookkeeping that only feeds it.
-/

instance {ε α : Type _} [DecidableEq ε] [DecidableEq α] : DecidableEq (Except ε α) :=
  fun x y =>
    match x, y with
    | .ok a, .ok b =>
        if h : a = b then isTrue (by rw [h]) else isFalse (fun hh => h (Except.ok.inj hh))
    | .error a, .error b =>
        if h : a = b then isTrue (by rw [h]) else isFalse (fun hh => h (Except.error.inj hh))
    | .ok _, .error _ => isFalse (fun hh => Except.noConfusion hh)
    | .error _, .ok _ => isFalse (fun hh => Except.noConfusion hh)

/-- Python `s.startswith(p)` (over the decoded characters; kernel-reducible,
unlike `String.startsWith`'s byte-position walk). -/
def pyStartsWith (s p : String) : Bool :=
  p.data.isPrefixOf s.data

/-- Python `str.strip()`: drop leading and trailing whitespace. -/
def pyStrip (s : String) : String :=
  String.mk (((s.data.dropWhile Char.isWhitespace).reverse.dropWhile Char.isWhitespace).reverse)

/-- Python `sep.join(xs)`: the strings of `xs` concatenated with `sep`
between consecutive elements (and no trailing `sep`). -/
def pyJoin (sep : String) : List String → String
  | [] => ""
  | [x] => x
  | x :: xs => x ++ sep ++ pyJoin sep xs

/-- Python `str.rstrip()`: drop trailing whitespace characters.
(Python also strips `\v`/`\f`; the protocol is plain ASCII lines, where
`Char.isWhitespace`'s set `' '`, `'\t'`, `'\r'`, `'\n'` coincides with the
characters that can actually trail a decoded serial line.) -/
def pyRstrip (s : String) : String :=
  String.mk ((s.data.reverse.dropWhile Char.isWhitespace).reverse)

/-- Python `str.rstrip("\r\n")` as used in `read_serial.py`: drop trailing
carriage-return and newline characters only. -/
def rstripCRLF (s : String) : String :=
  String.mk ((s.data.reverse.dropWhile (fun c => c == '\r' || c == '\n')).reverse)

/-- Helper for `pySplit`: walk the characters, cutting at `sep` while the
remaining split budget is nonzero. -/
def pySplitAux (sep : Char) : List Char → Nat → List Char → List String
  | [], _, acc => [String.mk acc.reverse]
  | c :: cs, budget, acc =>
    if c = sep ∧ budget ≠ 0 then
      String.mk acc.reverse :: pySplitAux sep cs (budget - 1) []
    else
      pySplitAux sep cs budget (c :: acc)

/-- Python `s.split(sep, maxsplit)` for a one-character separator:
split on at most `maxsplit` occurrences of `sep`, keeping the remainder
(including further separators) as the last field. -/
def pySplit (s : String) (sep : Char) (maxsplit : Nat) : List String :=
  pySplitAux sep s.data maxsplit []

/-- All-decimal-digit parse of a nonempty character list, the digit core of
Python `int()`. -/
def pyDigits? (cs : List Char) : Option Nat :=
  if cs ≠ [] ∧ cs.all Char.isDigit then
    some (cs.foldl (fun n c => 10 * n + (c.toNat - 48)) 0)
  else none

/-- Python `int(s)`: strip surrounding whitespace, allow an optional sign,
then require a nonempty digit string; `none` models the `ValueError` that
`int` raises otherwise.  (Python additionally allows `_` digit grouping,
which never occurs in this protocol's numeric fields.) -/
def pyInt? (s : String) : Option Int :=
  match (pyStrip s).data with
  | '+' :: ds => (pyDigits? ds).map Int.ofNat
  | '-' :: ds => (pyDigits? ds).map (fun n => -(n : Int))
  | ds => (pyDigits? ds).map Int.ofNat

/-! ## `read_serial.py`: the depth-frame decoder -/

/-- `DEPTH_CHARS = " .:-=+*#%@"` of `read_serial.py`: the ordered depth
alphabet; a character's position is its depth rank. -/
def DEPTH_CHARS : List Char := [' ', '.', ':', '-', '=', '+', '*', '#', '%', '@']

/-- Position of `c` in a character list, or `none`: the lookup underlying
the dict comprehension `CHAR_TO_VALUE = {c: i for i, c in enumerate(DEPTH_CHARS)}`. -/
def indexIn (c : Char) : List Char → Option Nat
  | [] => none
  | d :: ds => if c = d then some 0 else (indexIn c ds).map (· + 1)

/-- `CHAR_TO_VALUE.get(ch, 0)` of `read_serial.py`: the rank of `ch` in the
depth alphabet, and 0 for a character outside it. -/
def CHAR_TO_VALUE (ch : Char) : Nat :=
  (indexIn ch DEPTH_CHARS).getD 0

/-- One row of the frame built by `read_frame`'s fill loop
`for c, ch in enumerate(rows[r]): frame[r, c] = CHAR_TO_VALUE.get(ch, 0)`
over a `np.zeros((ROWS, COLS))` row: cells beyond the row's characters stay
zero.  (The admission rule of `read_frame` only ever buffers rows of length
exactly `COLS`, so the zero-padding branch is never reached on a buffered
row, and numpy's out-of-bounds error for a row longer than `COLS` cannot
occur either.) -/
def rowToValues : Nat → List Char → List Nat
  | 0, _ => []
  | n + 1, [] => 0 :: rowToValues n []
  | n + 1, ch :: cs => CHAR_TO_VALUE ch :: rowToValues n cs

/-- The frame `read_frame` returns once the buffer holds exactly `ROWS`
rows: each buffered row rendered to its numeric values, `COLS` wide. -/
def buildFrame (COLS : Nat) (buf : List String) : List (List Nat) :=
  buf.map (fun s => rowToValues COLS s.data)

/-- `read_frame` of `read_serial.py` over a finite trace of raw lines,
carrying the `rows` buffer explicitly.  Per line: `rstrip("\r\n")`; skip
empty lines; on `FRAME_END` emit the decoded frame when the buffer holds
exactly `ROWS` rows (the Python function returns, so the next call starts
with an empty buffer — hence the `[]`) and otherwise clear the buffer and
continue; append a line of length `COLS`, dropping the oldest buffered row
if the buffer exceeds `ROWS`; ignore lines of any other length.  The result
is the first emitted frame (or `none` if the trace ends without one)
together with the buffer state for the next call. -/
def read_frame (ROWS COLS : Nat) (buf : List String) :
    List String → Option (List (List Nat)) × List String
  | [] => (none, buf)
  | raw :: rest =>
    let line := rstripCRLF raw
    if line = "" then read_frame ROWS COLS buf rest
    else if line = "FRAME_END" then
      if buf.length = ROWS then (some (buildFrame COLS buf), [])
      else read_frame ROWS COLS [] rest
    else if line.length = COLS then
      let buf2 := buf ++ [line]
      read_frame ROWS COLS (if ROWS < buf2.length then buf2.drop 1 else buf2) rest
    else read_frame ROWS COLS buf rest

/-! ## `download_log.py`: the `SerialFileDownloader` operations -/

/-- `TIMEOUT = 5` of `download_log.py` (seconds). -/
def TIMEOUT : Nat := 5

/-- The kind tag of a listing entry: the `"type"` field of the dicts built
by `list_files` (`"file"` / `"dir"`). -/
inductive EntryType where
  | file
  | dir
deriving DecidableEq, Repr

/-- One entry of a listing: the dict
`{"name": ..., "size": ..., "type": ...}` built by `list_files`.
The size is an `Int` because it comes from Python `int()` (a devious
device could report a negative size and `list_files` would keep it). -/
structure FileEntry where
  name : String
  size : Int
  type : EntryType
deriving DecidableEq, Repr

/-- Lexicographic `≤` on character sequences by code point: the order
Python uses to compare `str` values (a proper prefix sorts first). -/
def charsLe : List Char → List Char → Bool
  | [], _ => true
  | _ :: _, [] => false
  | a :: as, b :: bs =>
    if a.toNat < b.toNat then true
    else if b.toNat < a.toNat then false
    else charsLe as bs

theorem charsLe_total : ∀ x y, charsLe x y = true ∨ charsLe y x = true
  | [], _ => .inl rfl
  | _ :: _, [] => .inr rfl
  | a :: as, b :: bs => by
    rcases Nat.lt_trichotomy a.toNat b.toNat with h | h | h
    · left; simp [charsLe, h]
    · have h' : ¬ a.toNat < b.toNat := by omega
      have h'' : ¬ b.toNat < a.toNat := by omega
      rcases charsLe_total as bs with ih | ih
      · left; simp [charsLe, h', h'', ih]
      · right; simp [charsLe, h', h'', ih]
    · right; simp [charsLe, h]

theorem charsLe_trans :
    ∀ x y z, charsLe x y = true → charsLe y z = true → charsLe x z = true
  | [], _, _, _, _ => rfl
  | _ :: _, [], _, hxy, _ => by simp [charsLe] at hxy
  | _ :: _, _ :: _, [], _, hyz => by simp [charsLe] at hyz
  | a :: as, b :: bs, c :: cs, hxy, hyz => by
    simp only [charsLe] at hxy hyz ⊢
    rcases Nat.lt_trichotomy a.toNat b.toNat with hab | hab | hab
    · rcases Nat.lt_trichotomy b.toNat c.toNat with hbc | hbc | hbc
      · have hac : a.toNat < c.toNat := by omega
        simp [hac]
      · have hac : a.toNat < c.toNat := by omega
        simp [hac]
      · have h1 : ¬ b.toNat < c.toNat := by omega
        simp [h1, hbc] at hyz
    · rcases Nat.lt_trichotomy b.toNat c.toNat with hbc | hbc | hbc
      · have hac : a.toNat < c.toNat := by omega
        simp [hac]
      · have h1 : ¬ a.toNat < b.toNat := by omega
        have h2 : ¬ b.toNat < a.toNat := by omega
        have h3 : ¬ b.toNat < c.toNat := by omega
        have h4 : ¬ c.toNat < b.toNat := by omega
        have h5 : ¬ a.toNat < c.toNat := by omega
        have h6 : ¬ c.toNat < a.toNat := by omega
        simp [h1, h2] at hxy
        simp [h3, h4] at hyz
        simp [h5, h6, charsLe_trans as bs cs hxy hyz]
      · have h3 : ¬ b.toNat < c.toNat := by omega
        simp [h3, hbc] at hyz
    · have h1 : ¬ a.toNat < b.toNat := by omega
      simp [h1, hab] at hxy

/-- The sort key relation of `sorted(..., key=lambda x: x["name"])`:
comparison by the `name` field in Python's code-point lexicographic
`str` order. -/
def nameLe (a b : FileEntry) : Prop := charsLe a.name.data b.name.data = true

instance : DecidableRel nameLe := fun a b =>
  instDecidableEqBool (charsLe a.name.data b.name.data) true

instance : IsTotal FileEntry nameLe :=
  ⟨fun a b => charsLe_total a.name.data b.name.data⟩

instance : IsTrans FileEntry nameLe :=
  ⟨fun a b c => charsLe_trans a.name.data b.name.data c.name.data⟩

/-- The final ordering of `list_files` (line 95 of `download_log.py`):
`sorted(dirs, key=name) + sorted(files, key=name)`.  Python's `sorted` is a
stable ascending sort by the key; `List.insertionSort` is a stable sort by
the same relation, and a stable sort by a given total preorder is unique,
so the two agree on every input (duplicates included). -/
def sortEntries (dirs files : List FileEntry) : List FileEntry :=
  dirs.insertionSort nameLe ++ files.insertionSort nameLe

/-- How the `list_files` read loop exited.  `result` below is the value the
Python function returns; this tag additionally records which exit path
produced it (`ended` = `break` on `FILE_LIST_END`; `errored` =
`return None` on `FILE_LIST_ERROR:`, carrying the message written to
stderr; `timeout` = the `while` condition failed, or equivalently the trace
ran dry and the loop idled to the deadline). -/
inductive ListExit where
  | ended
  | errored (msg : String)
  | timeout
deriving DecidableEq, Repr

/-- Outcome of `list_files`: the exit path and the returned value
(`none` models Python's `return None` on a device-reported error;
otherwise the sorted entry list). -/
structure ListOutcome where
  exit : ListExit
  result : Option (List FileEntry)
deriving DecidableEq, Repr

/-- The loop state of `list_files`: the deadline base `start` (the Python
`start = time.time()`, as an absolute time on the trace's clock), the
`receiving` flag, and the `dirs` / `files` accumulators. -/
structure ListState where
  start : Nat
  receiving : Bool
  dirs : List FileEntry
  files : List FileEntry
deriving DecidableEq, Repr

/-- The read loop of `list_files` (lines 69-96 of `download_log.py`) from
state `s` over the remaining timed trace.  A line arriving at time `t` is
processed iff `t - s.start < TIMEOUT` (the `while` condition); branches in
the source's order: `FILE_LIST_START` (sets `receiving` and resets
`start`), `FILE_LIST_END` (break: sort and return), `FILE_LIST_ERROR:`
(stderr message, `return None`), then — only when receiving — `FILE:`
lines split into exactly 3 colon-fields (any other field count silently
skipped; a non-numeric size raises `ValueError`, modelled as
`Except.error`) and `DIR:` lines split once.  Falling off the deadline
sorts and returns whatever accumulated. -/
def listFilesFrom (s : ListState) :
    List (Nat × String) → Except String ListOutcome
  | [] => .ok ⟨.timeout, some (sortEntries s.dirs s.files)⟩
  | (t, raw) :: evs =>
    if t - s.start < TIMEOUT then
      if pyRstrip raw = "FILE_LIST_START" then
        listFilesFrom { s with receiving := true, start := t } evs
      else if pyRstrip raw = "FILE_LIST_END" then
        .ok ⟨.ended, some (sortEntries s.dirs s.files)⟩
      else if pyStartsWith (pyRstrip raw) "FILE_LIST_ERROR:" then
        .ok ⟨.errored (if (pyRstrip raw).data.contains ':' then
                         (pySplit (pyRstrip raw) ':' 1).getD 1 ""
                       else "Unknown error"), none⟩
      else if s.receiving then
        if pyStartsWith (pyRstrip raw) "FILE:" then
          if (pySplit (pyRstrip raw) ':' 2).length = 3 then
            match pyInt? ((pySplit (pyRstrip raw) ':' 2).getD 2 "") with
            | some size =>
                listFilesFrom
                  { s with files :=
                      s.files ++ [⟨(pySplit (pyRstrip raw) ':' 2).getD 1 "", size, .file⟩] } evs
            | none => .error "ValueError"
          else listFilesFrom s evs
        else if pyStartsWith (pyRstrip raw) "DIR:" then
          listFilesFrom
            { s with dirs :=
                s.dirs ++ [⟨(pySplit (pyRstrip raw) ':' 1).getD 1 "", 0, .dir⟩] } evs
        else listFilesFrom s evs
      else listFilesFrom s evs
    else .ok ⟨.timeout, some (sortEntries s.dirs s.files)⟩

/-- `list_files` of `download_log.py` on a timed trace of raw lines,
starting at time 0 with the empty accumulators and `receiving = False`. -/
def list_files (evs : List (Nat × String)) : Except String ListOutcome :=
  listFilesFrom ⟨0, false, [], []⟩ evs

/-- `get_current_log_filename` of `download_log.py` (lines 46-59): scan
lines arriving before the deadline (`start` is time 0; the deadline is
never reset) for the first one starting with `LOG_FILENAME:`; return the
text after the first colon, `strip()`ped; `None` on deadline expiry. -/
def get_current_log_filename : List (Nat × String) → Option String
  | [] => none
  | (t, raw) :: evs =>
    if t - 0 < TIMEOUT then
      if pyStartsWith (pyRstrip raw) "LOG_FILENAME:" then
        some (pyStrip ((pySplit (pyRstrip raw) ':' 1).getD 1 ""))
      else get_current_log_filename evs
    else none

/-- How the `download_file` read loop exited: `ended` = `break` on
`FILE_END`; `errored` = `return None, error` on `FILE_ERROR:`; `timeout` =
deadline expiry (or trace exhaustion, which idles to the deadline). -/
inductive DlExit where
  | ended
  | errored
  | timeout
deriving DecidableEq, Repr

/-- Outcome of `download_file`.  `content` and `error` are the two
components of the returned pair `(content, error)`; `lines` additionally
records the `file_data` accumulator at exit (observational, for stating
properties about the accumulated payload). -/
structure DlOutcome where
  exit : DlExit
  content : Option String
  error : Option String
  lines : List String
deriving DecidableEq, Repr

/-- The loop state of `download_file`: the deadline base `start` and the
`receiving` flag, plus the `file_data` accumulator.  (`file_size` and
`bytes_received` are tracked by the source only to feed the external
progress callback and never influence control flow or the returned pair,
so they are not part of the state.) -/
structure DlState where
  start : Nat
  receiving : Bool
  lines : List String
deriving DecidableEq, Repr

/-- The epilogue of `download_file` (lines 139-142): with no accumulated
lines the pair is `(None, "No data received")`; otherwise
`("\n".join(file_data), None)`. -/
def dlFinish (e : DlExit) (lines : List String) : DlOutcome :=
  if lines = [] then ⟨e, none, some "No data received", []⟩
  else ⟨e, some (pyJoin "\n" lines), none, lines⟩

/-- The read loop of `download_file` (lines 108-142 of `download_log.py`)
from state `s` over the remaining timed trace.  A line arriving at time `t`
is processed iff `t - s.start < TIMEOUT * 10`; branches in the source's
order: `FILE_SIZE:` (parse the size with `int` — `ValueError` on a
non-numeric value, modelled as `Except.error` —, set `receiving`, reset
`start`), `FILE_START` (set `receiving`, reset `start`), `FILE_END`
(break), `FILE_ERROR:` (return `(None, message)` at once), then any
nonempty line while receiving is appended to `file_data` (without
resetting `start`).  Deadline expiry falls through to the epilogue. -/
def downloadFrom (s : DlState) :
    List (Nat × String) → Except String DlOutcome
  | [] => .ok (dlFinish .timeout s.lines)
  | (t, raw) :: evs =>
    if t - s.start < TIMEOUT * 10 then
      if pyStartsWith (pyRstrip raw) "FILE_SIZE:" then
        match pyInt? ((pySplit (pyRstrip raw) ':' 1).getD 1 "") with
        | some _ => downloadFrom { s with receiving := true, start := t } evs
        | none => .error "ValueError"
      else if pyRstrip raw = "FILE_START" then
        downloadFrom { s with receiving := true, start := t } evs
      else if pyRstrip raw = "FILE_END" then
        .ok (dlFinish .ended s.lines)
      else if pyStartsWith (pyRstrip raw) "FILE_ERROR:" then
        .ok ⟨.errored, none, some ((pySplit (pyRstrip raw) ':' 1).getD 1 ""), s.lines⟩
      else if s.receiving ∧ pyRstrip raw ≠ "" then
        downloadFrom { s with lines := s.lines ++ [pyRstrip raw] } evs
      else downloadFrom s evs
    else .ok (dlFinish .timeout s.lines)

/-- `download_file` of `download_log.py` on a timed trace of raw lines,
starting at time 0, not receiving, with an empty `file_data`. -/
def download_file (evs : List (Nat × String)) : Except String DlOutcome :=
  downloadFrom ⟨0, false, []⟩ evs

example : list_files [(0, "FILE_LIST_START"), (0, "DIR:b"), (0, "FILE:a.csv:120"),
    (0, "DIR:a"), (0, "FILE:z.csv:5"), (0, "FILE_LIST_END")] =
    .ok ⟨.ended, some [⟨"a", 0, .dir⟩, ⟨"b", 0, .dir⟩,
      ⟨"a.csv", 120, .file⟩, ⟨"z.csv", 5, .file⟩]⟩ := by decide

example : get_current_log_filename [(0, "noise"), (1, "LOG_FILENAME:/log_3.csv")] =
    some "/log_3.csv" := by decide

example : download_file [(0, "FILE_SIZE:10"), (1, "FILE_START"), (2, "hello"),
    (3, "world"), (4, "FILE_END")] =
    .ok ⟨.ended, some "hello\nworld", none, ["hello", "world"]⟩ := by decide

example : download_file [(0, "FILE_ERROR:File not found")] =
    .ok ⟨.errored, none, some "File not found", []⟩ := by decide

example : CHAR_TO_VALUE '@' = 9 := by decide
example : CHAR_TO_VALUE 'x' = 0 := by decide
example : read_frame 2 3 [] ["=+*", "#%@", "FRAME_END"] =
    (some [[4, 5, 6], [7, 8, 9]], []) := by decide
example : read_frame 2 3 [] ["=+*", "FRAME_END", "ab", " .:", "#%@", "FRAME_END"] =
    (some [[0, 1, 2], [7, 8, 9]], []) := by decide

/-! ## Frame-decoder lemmas -/

/-- On a character row of the admitted width, the zeros-then-fill rendering
is exactly the alphabet-rank map. -/
theorem rowToValues_eq_map : ∀ (cs : List Char), rowToValues cs.length cs = cs.map CHAR_TO_VALUE
  | [] => rfl
  | c :: cs => by
    simp only [List.length_cons, rowToValues, List.map_cons]
    rw [rowToValues_eq_map cs]

/-- A line as the frame decoder admits it into the row buffer: free of
trailing CR/LF (so `rstrip` leaves it unchanged), nonempty, of width
exactly `COLS`, and not the terminator sentinel. -/
def gridLine (COLS : Nat) (s : String) : Prop :=
  rstripCRLF s = s ∧ s ≠ "" ∧ s.length = COLS ∧ s ≠ "FRAME_END"

/-- Feeding admissible rows that fit in the remaining buffer capacity just
appends them to the buffer. -/
theorem read_frame_feed (ROWS COLS : Nat) :
    ∀ (g : List String) (buf : List String) (evs : List String),
      buf.length + g.length ≤ ROWS → (∀ l ∈ g, gridLine COLS l) →
      read_frame ROWS COLS buf (g ++ evs) = read_frame ROWS COLS (buf ++ g) evs
  | [], buf, evs, _, _ => by simp
  | l :: g, buf, evs, hlen, hwf => by
    obtain ⟨h1, h2, h3, h4⟩ := hwf l (by simp)
    rw [List.cons_append, read_frame]
    simp only [h1, if_neg h2, if_neg h4, if_pos h3]
    rw [if_neg (by simp at hlen ⊢; omega)]
    rw [read_frame_feed ROWS COLS g (buf ++ [l]) evs (by simp at hlen ⊢; omega)
      (fun x hx => hwf x (by simp [hx]))]
    simp

/-- A full admissible `ROWS × COLS` grid followed by the terminator decodes,
from an empty buffer, to the grid's alphabet ranks (and resets the buffer). -/
theorem read_frame_grid (ROWS COLS : Nat) (grid : List String) (evs : List String)
    (hlen : grid.length = ROWS) (hwf : ∀ l ∈ grid, gridLine COLS l) :
    read_frame ROWS COLS [] (grid ++ "FRAME_END" :: evs) =
      (some (grid.map (fun s => s.data.map CHAR_TO_VALUE)), []) := by
  rw [read_frame_feed ROWS COLS grid [] ("FRAME_END" :: evs) (by simp [hlen]) hwf]
  rw [read_frame]
  have hr : rstripCRLF "FRAME_END" = "FRAME_END" := by decide
  simp only [hr, List.nil_append, if_true]
  rw [if_pos hlen]
  have hb : buildFrame COLS grid = grid.map (fun s => s.data.map CHAR_TO_VALUE) := by
    refine List.map_congr_left (fun s hs => ?_)
    have h3 : s.data.length = COLS := (hwf s hs).2.2.1
    rw [← h3, rowToValues_eq_map]
  rw [hb, if_neg (by decide)]

/-- A character not in the alphabet has rank 0 under the `dict.get`
fallback. -/
theorem indexIn_eq_none : ∀ (ds : List Char) (c : Char), c ∉ ds → indexIn c ds = none
  | [], _, _ => rfl
  | d :: ds, c, h => by
    have h1 : ¬ c = d := fun hc => h (by simp [hc])
    simp only [indexIn, if_neg h1, indexIn_eq_none ds c (fun hc => h (by simp [hc])),
      Option.map_none']

/-- Claim C4, counterexample: the claim quantifies over every input of
exactly `rows` non-empty lines of length exactly `cols` followed by the
terminator, but a grid line that itself equals the sentinel `FRAME_END`
(possible when `cols = 9`) is consumed as a terminator, so decoding this
input yields no frame at all instead of the 1 × 9 frame of ranks the claim
promises. -/
theorem C4_counterexample :
    ("FRAME_END" : String) ≠ "" ∧ ("FRAME_END" : String).length = 9 ∧
    read_frame 1 9 [] (["FRAME_END"] ++ ["FRAME_END"]) = (none, []) := by decide

/-- Claim C4 (corrected): for every input of exactly `rows` non-empty lines
of length exactly `cols`, none equal to the `FRAME_END` sentinel (and none
carrying trailing CR/LF, which the line source strips), followed by the
`FRAME_END` terminator, decoding returns the `rows × cols` frame whose cell
`[r, c]` is the alphabet rank of the grid character at `[r, c]`, and a
character outside the alphabet maps to rank 0 rather than failing the
frame. -/
theorem C4_grid_decodes (ROWS COLS : Nat) (grid : List String)
    (hlen : grid.length = ROWS)
    (hwf : ∀ l ∈ grid, rstripCRLF l = l ∧ l ≠ "" ∧ l.length = COLS ∧ l ≠ "FRAME_END") :
    read_frame ROWS COLS [] (grid ++ ["FRAME_END"]) =
      (some (grid.map (fun s => s.data.map CHAR_TO_VALUE)), []) ∧
    (∀ (r c : Nat) (s : String) (ch : Char), grid[r]? = some s → s.data[c]? = some ch →
      (((grid.map (fun s => s.data.map CHAR_TO_VALUE))[r]?).bind (fun row => row[c]?)) =
        some (CHAR_TO_VALUE ch)) ∧
    (∀ ch, ch ∉ DEPTH_CHARS → CHAR_TO_VALUE ch = 0) := by
  refine ⟨read_frame_grid ROWS COLS grid [] hlen hwf, ?_, ?_⟩
  · intro r c s ch hs hc
    rw [List.getElem?_map, hs]
    simp [List.getElem?_map, hc]
  · intro ch h
    simp [CHAR_TO_VALUE, indexIn_eq_none DEPTH_CHARS ch h]

theorem C4_witness :
    read_frame 2 3 [] ((["=+*", "x%@"] : List String) ++ ["FRAME_END"]) =
      (some ((["=+*", "x%@"] : List String).map (fun s => s.data.map CHAR_TO_VALUE)), []) :=
  (C4_grid_decodes 2 3 ["=+*", "x%@"] (by decide) (by decide)).1

/-- Claim C5 (confirmed): when `FRAME_END` arrives while the buffered row
count differs from `rows`, no frame is emitted and the buffer is discarded
entirely (decoding continues from an empty buffer), so a subsequent full
`rows × cols` grid followed by a terminator decodes correctly with no
residual state. -/
theorem C5_resync (ROWS COLS : Nat) (buf evs grid : List String)
    (hbuf : buf.length ≠ ROWS) (hlen : grid.length = ROWS)
    (hwf : ∀ l ∈ grid, rstripCRLF l = l ∧ l ≠ "" ∧ l.length = COLS ∧ l ≠ "FRAME_END") :
    read_frame ROWS COLS buf ["FRAME_END"] = (none, []) ∧
    read_frame ROWS COLS buf ("FRAME_END" :: evs) = read_frame ROWS COLS [] evs ∧
    read_frame ROWS COLS buf ("FRAME_END" :: (grid ++ ["FRAME_END"])) =
      (some (grid.map (fun s => s.data.map CHAR_TO_VALUE)), []) := by
  have hr : rstripCRLF "FRAME_END" = "FRAME_END" := by decide
  have key : ∀ evs', read_frame ROWS COLS buf ("FRAME_END" :: evs') =
      read_frame ROWS COLS [] evs' := by
    intro evs'
    rw [read_frame]
    simp [hr, hbuf]
  refine ⟨key [], key evs, ?_⟩
  rw [key (grid ++ ["FRAME_END"])]
  exact read_frame_grid ROWS COLS grid [] hlen hwf

theorem C5_witness :
    read_frame 2 3 ["=+*"] ["FRAME_END"] = (none, []) ∧
    read_frame 2 3 ["=+*"] ("FRAME_END" :: ([] : List String)) = read_frame 2 3 [] [] ∧
    read_frame 2 3 ["=+*"] ("FRAME_END" :: ((["=+*", "#%@"] : List String) ++ ["FRAME_END"])) =
      (some ((["=+*", "#%@"] : List String).map (fun s => s.data.map CHAR_TO_VALUE)), []) :=
  C5_resync 2 3 ["=+*"] [] ["=+*", "#%@"] (by decide) (by decide) (by decide)

/-! ## Listing lemmas -/

/-- Every exit of the `list_files` loop either reports a device error
(returning `None`) or returns a successful listing: some accumulated
directory and file entries, correctly tagged, in the dirs-then-files
sorted arrangement.  This covers the `FILE_LIST_END` exit and the deadline
exit alike. -/
theorem listFilesFrom_shape :
    ∀ (evs : List (Nat × String)) (s : ListState) (o : ListOutcome),
      listFilesFrom s evs = .ok o →
      (∀ e ∈ s.dirs, e.type = .dir) → (∀ e ∈ s.files, e.type = .file) →
      (∃ m, o.exit = .errored m ∧ o.result = none) ∨
      (∃ ds fs, (∀ e ∈ ds, e.type = .dir) ∧ (∀ e ∈ fs, e.type = .file) ∧
        o.result = some (sortEntries ds fs))
  | [], s, o => by
    intro h hd hf
    rw [listFilesFrom] at h
    obtain rfl := Except.ok.inj h
    exact .inr ⟨s.dirs, s.files, hd, hf, rfl⟩
  | (t, raw) :: evs, s, o => by
    intro h hd hf
    rw [listFilesFrom] at h
    split at h
    · split at h
      · exact listFilesFrom_shape evs _ o h hd hf
      · split at h
        · obtain rfl := Except.ok.inj h
          exact .inr ⟨s.dirs, s.files, hd, hf, rfl⟩
        · split at h
          · obtain rfl := Except.ok.inj h
            exact .inl ⟨_, rfl, rfl⟩
          · split at h
            · split at h
              · split at h
                · split at h
                  · refine listFilesFrom_shape evs _ o h hd (fun e he => ?_)
                    rcases List.mem_append.mp he with h' | h'
                    · exact hf e h'
                    · simp only [List.mem_singleton] at h'
                      rw [h']
                  · exact Except.noConfusion h
                · exact listFilesFrom_shape evs _ o h hd hf
              · split at h
                · refine listFilesFrom_shape evs _ o h (fun e he => ?_) hf
                  rcases List.mem_append.mp he with h' | h'
                  · exact hd e h'
                  · simp only [List.mem_singleton] at h'
                    rw [h']
                · exact listFilesFrom_shape evs _ o h hd hf
            · exact listFilesFrom_shape evs _ o h hd hf
    · obtain rfl := Except.ok.inj h
      exact .inr ⟨s.dirs, s.files, hd, hf, rfl⟩

/-- Claim C2, counterexample: on the trace `FILE_LIST_START` at time 0 then
`DIR:a` at time 1 and nothing more, the deadline expires after
`FILE_LIST_START` was seen and before any `FILE_LIST_END` /
`FILE_LIST_ERROR`, yet `list_files` returns the partially collected entry
`DIR a` as a successful listing instead of reporting a timeout. -/
theorem C2_counterexample :
    list_files [(0, "FILE_LIST_START"), (1, "DIR:a")] =
      .ok ⟨.timeout, some [⟨"a", 0, .dir⟩]⟩ := by decide

/-- Claim C2 (corrected): when the `list_files` deadline expires — also
after `FILE_LIST_START` was seen and before `FILE_LIST_END` or
`FILE_LIST_ERROR` arrives — the operation does not report a timeout: it
falls through to the normal epilogue and returns the partially collected
entries (dirs-then-files, each group sorted) as a successful listing. -/
theorem C2_timeout_returns_entries (evs : List (Nat × String)) (o : ListOutcome)
    (h : list_files evs = .ok o) (ht : o.exit = .timeout) :
    ∃ ds fs, (∀ e ∈ ds, e.type = .dir) ∧ (∀ e ∈ fs, e.type = .file) ∧
      o.result = some (sortEntries ds fs) := by
  rcases listFilesFrom_shape evs _ o h (by simp) (by simp) with ⟨m, hm, _⟩ | hok
  · rw [ht] at hm
    exact ListExit.noConfusion hm
  · exact hok

theorem C2_witness :
    ∃ ds fs, (∀ e ∈ ds, e.type = .dir) ∧ (∀ e ∈ fs, e.type = .file) ∧
      (ListOutcome.mk .timeout (some [⟨"a", 0, .dir⟩])).result = some (sortEntries ds fs) :=
  C2_timeout_returns_entries [(0, "FILE_LIST_START"), (1, "DIR:a")]
    ⟨.timeout, some [⟨"a", 0, .dir⟩]⟩ (by decide) rfl

/-- Claim C6 (confirmed): every completed `list_files` exchange (exit via
`FILE_LIST_END`) returns all directory entries before all file entries,
each group sorted ascending by name in the code-point lexicographic order
`nameLe`, regardless of the order the device reported them; and the
claim's example trace yields exactly `[DIR a, DIR b, FILE a.csv(120),
FILE z.csv(5)]`. -/
theorem C6_sorted_listing :
    (∀ (evs : List (Nat × String)) (o : ListOutcome), list_files evs = .ok o →
      o.exit = .ended →
      ∃ ds fs, o.result = some (ds ++ fs) ∧
        (∀ e ∈ ds, e.type = .dir) ∧ (∀ e ∈ fs, e.type = .file) ∧
        List.Sorted nameLe ds ∧ List.Sorted nameLe fs) ∧
    list_files [(0, "FILE_LIST_START"), (0, "DIR:b"), (0, "FILE:a.csv:120"),
        (0, "DIR:a"), (0, "FILE:z.csv:5"), (0, "FILE_LIST_END")] =
      .ok ⟨.ended, some [⟨"a", 0, .dir⟩, ⟨"b", 0, .dir⟩,
        ⟨"a.csv", 120, .file⟩, ⟨"z.csv", 5, .file⟩]⟩ := by
  constructor
  · intro evs o h he
    rcases listFilesFrom_shape evs _ o h (by simp) (by simp) with ⟨m, hm, _⟩ |
      ⟨ds, fs, hds, hfs, hr⟩
    · rw [he] at hm
      exact ListExit.noConfusion hm
    · refine ⟨ds.insertionSort nameLe, fs.insertionSort nameLe, hr, ?_, ?_, ?_, ?_⟩
      · exact fun e hee => hds e ((List.perm_insertionSort nameLe ds).mem_iff.mp hee)
      · exact fun e hee => hfs e ((List.perm_insertionSort nameLe fs).mem_iff.mp hee)
      · exact List.sorted_insertionSort nameLe ds
      · exact List.sorted_insertionSort nameLe fs
  · decide

theorem C6_witness :
    ∃ ds fs, (ListOutcome.mk .ended (some [⟨"a", 0, .dir⟩, ⟨"b", 0, .dir⟩,
        ⟨"a.csv", 120, .file⟩, ⟨"z.csv", 5, .file⟩])).result = some (ds ++ fs) ∧
      (∀ e ∈ ds, e.type = .dir) ∧ (∀ e ∈ fs, e.type = .file) ∧
      List.Sorted nameLe ds ∧ List.Sorted nameLe fs :=
  C6_sorted_listing.1 [(0, "FILE_LIST_START"), (0, "DIR:b"), (0, "FILE:a.csv:120"),
    (0, "DIR:a"), (0, "FILE:z.csv:5"), (0, "FILE_LIST_END")]
    ⟨.ended, some [⟨"a", 0, .dir⟩, ⟨"b", 0, .dir⟩,
      ⟨"a.csv", 120, .file⟩, ⟨"z.csv", 5, .file⟩]⟩ (by decide) rfl

/-- Claim C1, counterexample: on a `LIST_FILES` trace whose consecutive
lines all arrive 4 time units apart — each gap below the base timeout of
5 — the operation nevertheless exits by deadline: the deadline base is
only ever reset by `FILE_LIST_START` (time 0), so the `DIR:b` line at
time 8 and the `FILE_LIST_END` at time 12 fall outside the window, and
only `DIR a` is collected. -/
theorem C1_counterexample :
    (4 - 0 < TIMEOUT ∧ 8 - 4 < TIMEOUT ∧ 12 - 8 < TIMEOUT) ∧
    list_files [(0, "FILE_LIST_START"), (4, "DIR:a"), (8, "DIR:b"), (12, "FILE_LIST_END")] =
      .ok ⟨.timeout, some [⟨"a", 0, .dir⟩]⟩ := by decide

/-- Claim C1 (corrected): only `FILE_LIST_START` (for `list_files`) and the
`FILE_SIZE:` / `FILE_START` preamble lines (for `download_file`) reset the
deadline base to the line's arrival time; recognized `FILE:` / `DIR:`
entry lines and payload lines are recorded with the deadline base left
unchanged, so an operation can time out once the time since the last reset
reaches the base timeout (5 for listing, 50 for download) even when every
gap between progress lines is below it. -/
theorem C1_deadline_resets (s : ListState) (d : DlState) (t u : Nat)
    (evsL evsD : List (Nat × String))
    (hL : t - s.start < TIMEOUT) (hrecv : s.receiving = true)
    (hD : u - d.start < TIMEOUT * 10) (hdrecv : d.receiving = true) :
    listFilesFrom s ((t, "FILE_LIST_START") :: evsL) =
      listFilesFrom { s with receiving := true, start := t } evsL ∧
    listFilesFrom s ((t, "DIR:a") :: evsL) =
      listFilesFrom { s with dirs := s.dirs ++ [⟨"a", 0, .dir⟩] } evsL ∧
    listFilesFrom s ((t, "FILE:a.csv:120") :: evsL) =
      listFilesFrom { s with files := s.files ++ [⟨"a.csv", 120, .file⟩] } evsL ∧
    downloadFrom d ((u, "FILE_SIZE:10") :: evsD) =
      downloadFrom { d with receiving := true, start := u } evsD ∧
    downloadFrom d ((u, "FILE_START") :: evsD) =
      downloadFrom { d with receiving := true, start := u } evsD ∧
    downloadFrom d ((u, "hello") :: evsD) =
      downloadFrom { d with lines := d.lines ++ ["hello"] } evsD := by
  refine ⟨?_, ?_, ?_, ?_, ?_, ?_⟩
  · rw [listFilesFrom, if_pos hL]
    rfl
  · rw [listFilesFrom, if_pos hL, hrecv]
    rfl
  · rw [listFilesFrom, if_pos hL, hrecv]
    rfl
  · rw [downloadFrom, if_pos hD]
    rfl
  · rw [downloadFrom, if_pos hD]
    rfl
  · rw [downloadFrom, if_pos hD, hdrecv]
    rfl

theorem C1_witness :
    listFilesFrom ⟨0, true, [], []⟩ [(1, "FILE_LIST_START")] =
      listFilesFrom ⟨1, true, [], []⟩ [] ∧
    listFilesFrom ⟨0, true, [], []⟩ [(1, "DIR:a")] =
      listFilesFrom ⟨0, true, [⟨"a", 0, .dir⟩], []⟩ [] ∧
    listFilesFrom ⟨0, true, [], []⟩ [(1, "FILE:a.csv:120")] =
      listFilesFrom ⟨0, true, [], [⟨"a.csv", 120, .file⟩]⟩ [] ∧
    downloadFrom ⟨0, true, []⟩ [(1, "FILE_SIZE:10")] = downloadFrom ⟨1, true, []⟩ [] ∧
    downloadFrom ⟨0, true, []⟩ [(1, "FILE_START")] = downloadFrom ⟨1, true, []⟩ [] ∧
    downloadFrom ⟨0, true, []⟩ [(1, "hello")] = downloadFrom ⟨0, true, ["hello"]⟩ [] :=
  C1_deadline_resets ⟨0, true, [], []⟩ ⟨0, true, []⟩ 1 1 [] []
    (by decide) rfl (by decide) rfl

/-- Claim C3, counterexample: a `FILE:` listing line with the non-numeric
size field `xyz`, and a `FILE_SIZE:` download line with the non-numeric
value `xyz`, are not skipped: `int()` raises a `ValueError` that escapes
the operation. -/
theorem C3_counterexample :
    list_files [(0, "FILE_LIST_START"), (1, "FILE:a:xyz")] = .error "ValueError" ∧
    download_file [(0, "FILE_SIZE:xyz")] = .error "ValueError" := by decide

/-- Claim C3 (corrected): a `FILE:` line with the wrong colon-field count
is silently skipped and the operation continues, but a `FILE:` line with a
non-numeric size field, and a `FILE_SIZE:` line with a non-numeric value,
raise an uncaught `ValueError` that aborts the whole operation instead of
being skipped. -/
theorem C3_malformed_lines (s : ListState) (d : DlState) (t u : Nat)
    (evsL evsD : List (Nat × String))
    (hL : t - s.start < TIMEOUT) (hrecv : s.receiving = true)
    (hD : u - d.start < TIMEOUT * 10) :
    listFilesFrom s ((t, "FILE:wrongfieldcount") :: evsL) = listFilesFrom s evsL ∧
    listFilesFrom s ((t, "FILE:a:xyz") :: evsL) = .error "ValueError" ∧
    downloadFrom d ((u, "FILE_SIZE:xyz") :: evsD) = .error "ValueError" := by
  refine ⟨?_, ?_, ?_⟩
  · rw [listFilesFrom, if_pos hL, hrecv]
    rfl
  · rw [listFilesFrom, if_pos hL, hrecv]
    rfl
  · rw [downloadFrom, if_pos hD]
    rfl

theorem C3_witness :
    listFilesFrom ⟨0, true, [], []⟩ [(1, "FILE:wrongfieldcount")] =
      listFilesFrom ⟨0, true, [], []⟩ [] ∧
    listFilesFrom ⟨0, true, [], []⟩ [(1, "FILE:a:xyz")] = .error "ValueError" ∧
    downloadFrom ⟨0, true, []⟩ [(1, "FILE_SIZE:xyz")] = .error "ValueError" :=
  C3_malformed_lines ⟨0, true, [], []⟩ ⟨0, true, []⟩ 1 1 [] [] (by decide) rfl (by decide)

/-! ## Splitting lemmas for the filename query -/

/-- With an exhausted split budget, `pySplitAux` returns the rest as one
field. -/
theorem pySplitAux_zero (sep : Char) :
    ∀ (cs acc : List Char), pySplitAux sep cs 0 acc = [String.mk (acc.reverse ++ cs)]
  | [], acc => by simp [pySplitAux]
  | c :: cs, acc => by
    rw [pySplitAux, if_neg (by simp)]
    rw [pySplitAux_zero sep cs (c :: acc)]
    simp

/-- `pySplitAux` walks past a separator-free prefix, accumulating it. -/
theorem pySplitAux_no_sep (sep : Char) :
    ∀ (p : List Char), (∀ c ∈ p, c ≠ sep) → ∀ (cs : List Char) (budget : Nat) (acc : List Char),
      pySplitAux sep (p ++ cs) budget acc = pySplitAux sep cs budget (p.reverse ++ acc)
  | [], _, cs, budget, acc => by simp
  | c :: p, h, cs, budget, acc => by
    rw [List.cons_append, pySplitAux, if_neg (by simp [h c (List.mem_cons_self c p)])]
    rw [pySplitAux_no_sep sep p (fun x hx => h x (List.mem_cons_of_mem c hx)) cs budget
      (c :: acc)]
    simp

/-- Splitting `LOG_FILENAME:<rest>` on the first colon yields the tag and
the whole remainder, any further colons included. -/
theorem pySplit_log_filename (rest : String) :
    pySplit ("LOG_FILENAME:" ++ rest) ':' 1 = ["LOG_FILENAME", rest] := by
  unfold pySplit
  rw [String.data_append]
  have h : ("LOG_FILENAME:" : String).data = "LOG_FILENAME".data ++ [':'] := by decide
  rw [h, List.append_assoc]
  rw [pySplitAux_no_sep ':' "LOG_FILENAME".data (by decide) ([':'] ++ rest.data) 1 []]
  rw [List.singleton_append, pySplitAux, if_pos ⟨rfl, by decide⟩]
  rw [pySplitAux_zero]
  simp

/-- A string starts with any of its prefixes. -/
theorem pyStartsWith_append (p s : String) : pyStartsWith (p ++ s) p = true := by
  unfold pyStartsWith
  rw [String.data_append]
  exact List.isPrefixOf_iff_prefix.mpr (List.prefix_append _ _)

/-- Claim C7, counterexample: for the line `LOG_FILENAME: a` the text after
the first colon is `" a"`, but the operation returns `"a"`: the source
applies `strip()` to the split-off name, so surrounding whitespace is not
preserved verbatim. -/
theorem C7_counterexample :
    get_current_log_filename [(0, "LOG_FILENAME: a")] = some "a" ∧
    (pySplit "LOG_FILENAME: a" ':' 1).getD 1 "" = " a" ∧ ("a" : String) ≠ " a" := by decide

/-- Claim C7 (corrected): when a line `LOG_FILENAME:<name>` arrives before
the deadline, the returned filename is the text after the first colon of
the line — split on the first colon only, interior colons preserved
verbatim — with leading and trailing whitespace stripped from it. -/
theorem C7_filename_after_colon (t : Nat) (rest : String) (evs : List (Nat × String))
    (ht : t < TIMEOUT)
    (hr : pyRstrip ("LOG_FILENAME:" ++ rest) = "LOG_FILENAME:" ++ rest) :
    get_current_log_filename ((t, "LOG_FILENAME:" ++ rest) :: evs) = some (pyStrip rest) := by
  rw [get_current_log_filename, if_pos (by simpa using ht), hr,
    if_pos (pyStartsWith_append "LOG_FILENAME:" rest), pySplit_log_filename]
  rfl

theorem C7_witness :
    get_current_log_filename [(0, "LOG_FILENAME:" ++ "/log:2.csv")] =
      some (pyStrip "/log:2.csv") :=
  C7_filename_after_colon 0 "/log:2.csv" [] (by decide) (by decide)

/-! ## Download lemmas -/

/-- Every exit of the `download_file` loop is either the `FILE_ERROR:` path
(content `None`, the device's message as the error) or the common epilogue
`dlFinish` on the accumulated lines, reached by `FILE_END` or by the
deadline. -/
theorem downloadFrom_shape :
    ∀ (evs : List (Nat × String)) (s : DlState) (o : DlOutcome),
      downloadFrom s evs = .ok o →
      (∃ m L, o = ⟨.errored, none, some m, L⟩) ∨
      (∃ e L, (e = DlExit.ended ∨ e = DlExit.timeout) ∧ o = dlFinish e L)
  | [], s, o => by
    intro h
    rw [downloadFrom] at h
    obtain rfl := Except.ok.inj h
    exact .inr ⟨.timeout, s.lines, .inr rfl, rfl⟩
  | (t, raw) :: evs, s, o => by
    intro h
    rw [downloadFrom] at h
    split at h
    · split at h
      · split at h
        · exact downloadFrom_shape evs _ o h
        · exact Except.noConfusion h
      · split at h
        · exact downloadFrom_shape evs _ o h
        · split at h
          · obtain rfl := Except.ok.inj h
            exact .inr ⟨.ended, s.lines, .inl rfl, rfl⟩
          · split at h
            · obtain rfl := Except.ok.inj h
              exact .inl ⟨_, s.lines, rfl⟩
            · split at h
              · exact downloadFrom_shape evs _ o h
              · exact downloadFrom_shape evs _ o h
    · obtain rfl := Except.ok.inj h
      exact .inr ⟨.timeout, s.lines, .inr rfl, rfl⟩

/-- Claim C8 (confirmed): every `download_file` return carries exactly one
of a content payload or an error message, never both; and when the
operation ends with zero accumulated payload lines and no `FILE_ERROR:`
line was seen, it reports the failure `No data received` rather than a
silent success with empty content. -/
theorem C8_exclusive_outcome (evs : List (Nat × String)) (o : DlOutcome)
    (h : download_file evs = .ok o) :
    (((∃ c, o.content = some c) ∧ o.error = none) ∨
      (o.content = none ∧ ∃ m, o.error = some m)) ∧
    (o.lines = [] → o.exit ≠ .errored →
      o.content = none ∧ o.error = some "No data received") := by
  rcases downloadFrom_shape evs _ o h with ⟨m, L, rfl⟩ | ⟨e, L, _, rfl⟩
  · exact ⟨.inr ⟨rfl, m, rfl⟩, fun _ hex => absurd rfl hex⟩
  · by_cases hL : L = []
    · rw [dlFinish, if_pos hL]
      exact ⟨.inr ⟨rfl, _, rfl⟩, fun _ _ => ⟨rfl, rfl⟩⟩
    · rw [dlFinish, if_neg hL]
      exact ⟨.inl ⟨⟨_, rfl⟩, rfl⟩, fun hl _ => absurd hl hL⟩

theorem C8_witness :
    (((∃ c, (DlOutcome.mk .ended (some "hello") none ["hello"]).content = some c) ∧
      (DlOutcome.mk .ended (some "hello") none ["hello"]).error = none) ∨
      ((DlOutcome.mk .ended (some "hello") none ["hello"]).content = none ∧
        ∃ m, (DlOutcome.mk .ended (some "hello") none ["hello"]).error = some m)) ∧
    ((DlOutcome.mk .ended (some "hello") none ["hello"]).lines = [] →
      (DlOutcome.mk .ended (some "hello") none ["hello"]).exit ≠ .errored →
      (DlOutcome.mk .ended (some "hello") none ["hello"]).content = none ∧
        (DlOutcome.mk .ended (some "hello") none ["hello"]).error =
          some "No data received") :=
  C8_exclusive_outcome [(0, "FILE_START"), (1, "hello"), (2, "FILE_END")]
    ⟨.ended, some "hello", none, ["hello"]⟩ (by decide)

/-- While in receiving mode, a run of plain payload lines (none of them a
sentinel, all arriving in time) is appended to `file_data` in arrival
order. -/
theorem downloadFrom_feed :
    ∀ (ls L : List String) (evs : List (Nat × String)),
      (∀ l ∈ ls, pyRstrip l = l ∧ l ≠ "" ∧ pyStartsWith l "FILE_SIZE:" = false ∧
        l ≠ "FILE_START" ∧ l ≠ "FILE_END" ∧ pyStartsWith l "FILE_ERROR:" = false) →
      downloadFrom ⟨0, true, L⟩ (ls.map (fun l => ((0 : Nat), l)) ++ evs) =
        downloadFrom ⟨0, true, L ++ ls⟩ evs
  | [], L, evs, _ => by simp
  | l :: ls, L, evs, h => by
    obtain ⟨h1, h2, h3, h4, h5, h6⟩ := h l (List.mem_cons_self l ls)
    rw [List.map_cons, List.cons_append, downloadFrom,
      if_pos (show 0 - (0 : Nat) < TIMEOUT * 10 by decide), h1,
      if_neg (by simp [h3]), if_neg h4, if_neg h5, if_neg (by simp [h6]),
      if_pos ⟨rfl, h2⟩]
    rw [downloadFrom_feed ls (L ++ [l]) evs (fun x hx => h x (List.mem_cons_of_mem l hx))]
    simp

/-- Claim C9, counterexample: for the payload lines `a`, `b` the returned
content is `"a\nb"` — the terminator is reinstated between the lines but
not after the final one, so the content is not "each line followed by its
terminator" (`"a\nb\n"`). -/
theorem C9_counterexample :
    download_file [(0, "FILE_START"), (1, "a"), (2, "b"), (3, "FILE_END")] =
      .ok ⟨.ended, some "a\nb", none, ["a", "b"]⟩ ∧ ("a\nb" : String) ≠ "a\nb\n" := by decide

/-- Claim C9 (corrected): for every successful download with payload lines
`L1..Ln` in arrival order, each payload line is appended verbatim and the
returned content is the lines in arrival order with no reordering, joined
by a single line terminator between consecutive lines — the terminator is
reinstated between lines but not appended after the final one. -/
theorem C9_content_in_order (ls : List String) (hne : ls ≠ [])
    (hwf : ∀ l ∈ ls, pyRstrip l = l ∧ l ≠ "" ∧ pyStartsWith l "FILE_SIZE:" = false ∧
      l ≠ "FILE_START" ∧ l ≠ "FILE_END" ∧ pyStartsWith l "FILE_ERROR:" = false) :
    download_file (((0 : Nat), "FILE_START") ::
        (ls.map (fun l => ((0 : Nat), l)) ++ [((0 : Nat), "FILE_END")])) =
      .ok ⟨.ended, some (pyJoin "\n" ls), none, ls⟩ := by
  have h1 : download_file (((0 : Nat), "FILE_START") ::
      (ls.map (fun l => ((0 : Nat), l)) ++ [((0 : Nat), "FILE_END")])) =
      downloadFrom ⟨0, true, []⟩ (ls.map (fun l => ((0 : Nat), l)) ++ [((0 : Nat), "FILE_END")]) := by
    rw [download_file, downloadFrom, if_pos (by decide)]
    rfl
  have h2 : downloadFrom ⟨0, true, ([] : List String) ++ ls⟩ [((0 : Nat), "FILE_END")] =
      .ok (dlFinish .ended ls) := by
    rw [downloadFrom, if_pos (show 0 - (0 : Nat) < TIMEOUT * 10 by decide)]
    rfl
  rw [h1, downloadFrom_feed ls [] [((0 : Nat), "FILE_END")] hwf, h2, dlFinish, if_neg hne]

theorem C9_witness :
    download_file (((0 : Nat), "FILE_START") ::
        ((["hello", "world"].map (fun l => ((0 : Nat), l))) ++ [((0 : Nat), "FILE_END")])) =
      .ok ⟨.ended, some (pyJoin "\n" ["hello", "world"]), none, ["hello", "world"]⟩ :=
  C9_content_in_order ["hello", "world"] (by decide) (by decide)

/-- Claim C10 (confirmed): a `FILE_END` that arrives in time while
receiving mode was never entered and no payload was accumulated is acted
on immediately — the loop breaks, any further trace is ignored — and the
operation returns the failure `No data received` rather than treating the
line as noise. -/
theorem C10_early_file_end (d : DlState) (t : Nat) (evs : List (Nat × String))
    (ht : t - d.start < TIMEOUT * 10) (_hrecv : d.receiving = false)
    (hlines : d.lines = []) :
    downloadFrom d ((t, "FILE_END") :: evs) =
      .ok ⟨.ended, none, some "No data received", []⟩ := by
  rw [downloadFrom, if_pos ht, hlines]
  rfl

theorem C10_witness :
    downloadFrom ⟨0, false, []⟩ [(3, "FILE_END"), (4, "payload")] =
      .ok ⟨.ended, none, some "No data received", []⟩ :=
  C10_early_file_end ⟨0, false, []⟩ 3 [(4, "payload")] (by decide) rfl rfl
